import Mathlib

/-!
Verification development for the elevenlabs-voice-app repository.

The embedding covers the two modules the claims are about:

* `src/app/api/chat/route.ts` — the static tool-category table
  `TOOL_CATEGORIES`, the progressive tool-disclosure gate
  `getEnabledTools`, and the catalog-failure behaviour of the `POST`
  chat handler;
* `src/lib/mcp-http-client.ts` — the JSON-RPC envelope handling of
  `jsonRpcRequest`, the schema normalisation `ensureObjectSchema`, and
  the per-tool `execute` callback built by `createMCPTools`.

TypeScript objects are modelled as Lean structures, optional fields as
`Option`, JavaScript arrays as `List`, the `Set` of used tool names by
its membership function on the underlying list, and thrown exceptions
as the `Except.error` branch of an `Except String` result.
-/

namespace ElevenVoice

-- Tool category table from the chat route (`TOOL_CATEGORIES`).
namespace TOOL_CATEGORIES

def safe : List String :=
  ["get_current_time", "list_devices", "get_page_info", "get_page_elements",
   "list_tabs", "get_terminal_output", "list_terminals", "get_session_info",
   "list_sessions", "recall_memory", "get_console_logs", "list_viewport_presets",
   "visual_list_baselines", "voice_status", "supabase_query"]

def navigation : List String :=
  ["navigate_browser", "create_tab", "switch_tab"]

def interaction : List String :=
  ["click_element", "fill_input", "scroll_page", "hover_element", "send_key",
   "wait_for_element", "query_element", "execute_javascript", "take_screenshot",
   "set_viewport", "visual_save_baseline", "visual_compare"]

def terminal : List String :=
  ["send_terminal_command", "create_terminal", "spawn_claude_session",
   "send_to_session", "broadcast_to_agents"]

def database_write : List String :=
  ["supabase_insert", "supabase_update", "supabase_delete"]

def destructive : List String :=
  ["close_tab"]

def memory : List String :=
  ["store_memory"]

def voice : List String :=
  ["voice_speak", "voice_start_listening", "voice_stop_listening"]

def agent_draft : List String :=
  ["draft_to_agent", "get_agent_input", "edit_agent_input", "clear_agent_input",
   "get_agent_conversation", "wait_for_agent_response", "list_agent_sessions",
   "get_session_output"]

end TOOL_CATEGORIES

/-- One recorded tool call inside a step (`{ toolName: string }`). -/
structure ToolCall where
  toolName : String
  deriving DecidableEq, Repr

/-- One prior step of the tool loop (`{ toolCalls?: Array<{toolName}> }`);
the `toolCalls` field is optional in the TypeScript type. -/
structure Step where
  toolCalls : Option (List ToolCall)
  deriving DecidableEq, Repr

/-- Names of the calls of one step: `s.toolCalls?.map(c => c.toolName) || []`. -/
def stepToolNames (s : Step) : List String :=
  (s.toolCalls.map (fun cs => cs.map ToolCall.toolName)).getD []

/-- The used-tools collection of `getEnabledTools`:
`previousSteps.flatMap(s => s.toolCalls?.map(c => c.toolName) || [])`
(the source wraps it in a `Set`, which we model by list membership). -/
def usedTools (previousSteps : List Step) : List String :=
  previousSteps.flatMap stepToolNames

/-- Whether navigation has happened:
`usedTools.has('navigate_browser') || usedTools.has('create_tab')`. -/
def hasNavigated (previousSteps : List Step) : Bool :=
  (usedTools previousSteps).contains "navigate_browser" ||
    (usedTools previousSteps).contains "create_tab"

/-- Whether devices were listed: `usedTools.has('list_devices')`
(computed by the source but never read afterwards). -/
def hasListedDevices (previousSteps : List Step) : Bool :=
  (usedTools previousSteps).contains "list_devices"

/-- Screenshot usage counter of `getEnabledTools`: the number of steps whose
`toolCalls` contain a `take_screenshot` call
(`previousSteps.filter(s => s.toolCalls?.some(c => c.toolName === 'take_screenshot')).length`). -/
def screenshotCount (previousSteps : List Step) : Nat :=
  (previousSteps.filter
    (fun s => (s.toolCalls.map
      (fun cs => cs.any (fun c => c.toolName = "take_screenshot"))).getD false)).length

/-- The set of enabled tool names built by `getEnabledTools`, modelled as a
list whose membership matches the source's `Set<string>` after its sequence
of `add`s and the one conditional `delete('take_screenshot')`. -/
def enabledToolNames (previousSteps : List Step) : List String :=
  let s2 := TOOL_CATEGORIES.safe ++ TOOL_CATEGORIES.navigation
  let s3 :=
    if hasNavigated previousSteps then
      let si := s2 ++ TOOL_CATEGORIES.interaction
      if 5 ≤ screenshotCount previousSteps then
        si.filter (fun t => t ≠ "take_screenshot")
      else si
    else s2
  let s4 := s3 ++ TOOL_CATEGORIES.terminal
  let s5 := s4 ++ TOOL_CATEGORIES.database_write
  let s6 :=
    if hasNavigated previousSteps || (usedTools previousSteps).contains "list_tabs" then
      s5 ++ TOOL_CATEGORIES.destructive
    else s5
  let s7 := s6 ++ TOOL_CATEGORIES.memory
  let s8 := s7 ++ TOOL_CATEGORIES.voice
  s8 ++ TOOL_CATEGORIES.agent_draft

/-- The tool gate `getEnabledTools(allTools, previousSteps)`: keep exactly the
entries of the catalog whose name is in the enabled set.  A `ToolSet` object
is modelled as an association list from tool name to tool definition. -/
def getEnabledTools {α : Type} (allTools : List (String × α))
    (previousSteps : List Step) : List (String × α) :=
  allTools.filter (fun p => (enabledToolNames previousSteps).contains p.1)

/-- Proof-side reformulation of the enabled set as a function of the three
booleans the gate branches on (navigation seen, `list_tabs` seen, screenshot
limit reached); `enabledToolNames_eq` relates it to the source translation. -/
def enabledOf (nav listtabs sslimit : Bool) : List String :=
  let s2 := TOOL_CATEGORIES.safe ++ TOOL_CATEGORIES.navigation
  let s3 :=
    if nav then
      let si := s2 ++ TOOL_CATEGORIES.interaction
      if sslimit then si.filter (fun t => t ≠ "take_screenshot") else si
    else s2
  let s4 := s3 ++ TOOL_CATEGORIES.terminal
  let s5 := s4 ++ TOOL_CATEGORIES.database_write
  let s6 := if nav || listtabs then s5 ++ TOOL_CATEGORIES.destructive else s5
  let s7 := s6 ++ TOOL_CATEGORIES.memory
  let s8 := s7 ++ TOOL_CATEGORIES.voice
  s8 ++ TOOL_CATEGORIES.agent_draft

lemma enabledToolNames_eq (previousSteps : List Step) :
    enabledToolNames previousSteps =
      enabledOf (hasNavigated previousSteps)
        ((usedTools previousSteps).contains "list_tabs")
        (decide (5 ≤ screenshotCount previousSteps)) := by
  unfold enabledToolNames enabledOf
  by_cases hn : hasNavigated previousSteps <;>
    by_cases hl : (usedTools previousSteps).contains "list_tabs" <;>
      by_cases hs : 5 ≤ screenshotCount previousSteps <;>
        simp [hn, hl, hs]

lemma mem_getEnabledTools {α : Type} (allTools : List (String × α))
    (previousSteps : List Step) (p : String × α) :
    p ∈ getEnabledTools allTools previousSteps ↔
      p ∈ allTools ∧ p.1 ∈ enabledToolNames previousSteps := by
  simp [getEnabledTools]

/-- JavaScript string disjunction `a || b` for an optional string `a`:
an absent or empty string is falsy and selects `b`. -/
def jsOrString (a : Option String) (b : String) : String :=
  match a with
  | some s => if s = "" then b else s
  | none => b

/-- Root `type` field of a JSON schema (`JSONSchema7TypeName` or an array of
type names); the source compares it with `===` against the string form. -/
inductive SchemaTypeField
  | name (t : String)
  | names (ts : List String)
  deriving DecidableEq, Repr

/-- Root of a `JSONSchema7` object as the client manipulates it: the three
keys the normaliser reads or writes, plus every other root-level keyword in
`extra`; subschema values are left abstract in `α`. -/
structure JsonSchema (α : Type) where
  type? : Option SchemaTypeField
  properties? : Option (List (String × α))
  required? : Option (List String)
  extra : List (String × α)
  deriving DecidableEq, Repr

/-- The local `defaultSchema` constant of `ensureObjectSchema`:
`{ type: 'object', properties: {} }`. -/
def defaultSchema (α : Type) : JsonSchema α :=
  { type? := some (.name "object"), properties? := some [], required? := none,
    extra := [] }

/-- Schema normalisation `ensureObjectSchema` of `mcp-http-client.ts`: a
missing schema or a schema whose `type` is not the exact string `object`
becomes the default empty-object schema; an object-typed schema is rebuilt
from only its `properties` (defaulted to `{}` when absent, note that an
empty object is truthy in JavaScript so `schema.properties || {}` only
replaces a missing field) and its `required`. -/
def ensureObjectSchema {α : Type} (schema : Option (JsonSchema α)) : JsonSchema α :=
  match schema with
  | none => defaultSchema α
  | some s =>
    if s.type? = some (.name "object") then
      { type? := some (.name "object"),
        properties? := some (s.properties?.getD []),
        required? := s.required?,
        extra := [] }
    else
      defaultSchema α

/-- The `error` member of a JSON-RPC reply; `stringified` stands for the
string `JSON.stringify` produces for the whole error object, which the code
uses when `error.message` is absent or empty. -/
structure RpcError where
  message? : Option String
  stringified : String
  deriving DecidableEq, Repr

/-- A parsed JSON-RPC reply body: either it carries an `error` member (which
`jsonRpcRequest` checks first and turns into a thrown exception) or it is a
success carrying `result`. -/
inductive RpcReply (ρ : Type)
  | failure (error : RpcError)
  | success (result : ρ)
  deriving DecidableEq, Repr

/-- Outcome of `jsonRpcRequest` on a parsed reply (lines 88–95): an error
member becomes a thrown `Error` whose message is
`MCP error: ${result.error.message || JSON.stringify(result.error)}`;
otherwise `result.result` is returned. -/
def jsonRpcOutcome {ρ : Type} (reply : RpcReply ρ) : Except String ρ :=
  match reply with
  | .failure e => .error ("MCP error: " ++ jsOrString e.message? e.stringified)
  | .success r => .ok r

/-- One element of the `content` array of a `tools/call` response. -/
structure ContentItem where
  type : String
  text? : Option String
  data? : Option String
  mimeType? : Option String
  deriving DecidableEq, Repr

/-- The `MCPCallToolResponse` interface. -/
structure MCPCallToolResponse where
  content : List ContentItem
  isError? : Option Bool
  deriving DecidableEq, Repr

/-- Value produced by a successful run of the per-tool `execute` callback:
either the joined text content, the `JSON.stringify(result.content)`
fallback when the text is empty (kept symbolically), or the
text-plus-image object for responses with embedded image data. -/
inductive ExecuteValue
  | plain (text : String)
  | stringifiedContent (content : List ContentItem)
  | withImage (text image mimeType : String)
  deriving DecidableEq, Repr

/-- The final `return textContent || JSON.stringify(result.content)` of
`execute` (reached when there is no image content with data). -/
def executeDefaultReturn (textContent : String) (content : List ContentItem) :
    ExecuteValue :=
  if textContent = "" then .stringifiedContent content else .plain textContent

/-- The per-tool `execute` callback of `createMCPTools` (lines 150–182),
as a function of the outcome of its inner `jsonRpcRequest` for `tools/call`:
on success it extracts the text content (joining `text` fields with a
newline, an item without text contributing the empty string as
`Array.prototype.join` does) and, when an image item with truthy `data` is
present, returns the text-plus-image object; the `catch` block logs and
rethrows, so a failed RPC propagates as the same exception. -/
def executeToolCall (outcome : Except String MCPCallToolResponse) :
    Except String ExecuteValue :=
  match outcome with
  | .error e => .error e
  | .ok result =>
    let textContent :=
      String.intercalate "\n"
        ((result.content.filter (fun c => c.type = "text")).map
          (fun c => c.text?.getD ""))
    match result.content.find? (fun c => c.type = "image") with
    | some imageContent =>
      match imageContent.data? with
      | some d =>
        if d = "" then .ok (executeDefaultReturn textContent result.content)
        else
          .ok (.withImage (if textContent = "" then "Image captured" else textContent)
            d (jsOrString imageContent.mimeType? "image/png"))
      | none => .ok (executeDefaultReturn textContent result.content)
    | none => .ok (executeDefaultReturn textContent result.content)

/-- An entry of the remote tool catalog (`MCPTool`). -/
structure MCPTool (α : Type) where
  name : String
  description? : Option String
  inputSchema? : Option (JsonSchema α)
  deriving DecidableEq, Repr

/-- The `tools/list` result (`MCPToolsResponse`). -/
structure MCPToolsResponse (α : Type) where
  tools : List (MCPTool α)
  deriving DecidableEq, Repr

/-- An AI-SDK tool object as `createMCPTools` builds it (description and
normalised input schema; the `execute` closure is modelled separately by
`executeToolCall`). -/
structure BuiltTool (α : Type) where
  description : String
  inputSchema : JsonSchema α
  deriving DecidableEq, Repr

/-- Catalog construction of `createMCPTools`, as a function of the outcome
of its `tools/list` request: a failed request propagates (the function has
no handler), a successful one yields the name-keyed tool set with
normalised schemas, the tool count and the tool names. -/
def createMCPTools {α : Type} (listOutcome : Except String (MCPToolsResponse α)) :
    Except String (List (String × BuiltTool α) × Nat × List String) :=
  match listOutcome with
  | .error e => .error e
  | .ok resp =>
    .ok (resp.tools.map (fun t =>
          (t.name,
           { description := jsOrString t.description? ("MCP tool: " ++ t.name),
             inputSchema := ensureObjectSchema t.inputSchema? })),
         resp.tools.length,
         resp.tools.map (fun t => t.name))

/-- Response of the chat route `POST` handler: on success a streaming agent
response built over the fetched tool set, on a caught exception the JSON
error response `{error: 'Failed to process chat request', details}` with
HTTP status 500. -/
inductive ChatResponse (α : Type)
  | streamResponse (tools : List (String × BuiltTool α)) (toolCount : Nat)
  | errorResponse (status : Nat) (error details : String)
  deriving DecidableEq, Repr

/-- The `POST` handler of the chat route as a function of the catalog-fetch
outcome: `createMCPTools` is awaited inside the `try`, so a fetch failure
reaches the `catch` block, which returns the 500 error response with the
thrown message as `details`; on success the agent streaming response over
the fetched tools is returned. -/
def POST {α : Type} (listOutcome : Except String (MCPToolsResponse α)) :
    ChatResponse α :=
  match createMCPTools listOutcome with
  | .ok (tools, toolCount, _) => .streamResponse tools toolCount
  | .error e => .errorResponse 500 "Failed to process chat request" e

/-- Every tool name of the category table, in table order. -/
def allToolNames : List String :=
  TOOL_CATEGORIES.safe ++ TOOL_CATEGORIES.navigation ++ TOOL_CATEGORIES.interaction ++
  TOOL_CATEGORIES.terminal ++ TOOL_CATEGORIES.database_write ++
  TOOL_CATEGORIES.destructive ++ TOOL_CATEGORIES.memory ++ TOOL_CATEGORIES.voice ++
  TOOL_CATEGORIES.agent_draft

/-- A concrete catalog containing every category tool, used for concrete
evaluations of the gate. -/
def fullCatalog : List (String × Unit) := allToolNames.map (fun n => (n, ()))

/-- A step recording the given list of tool calls. -/
def stepOf (names : List String) : Step := ⟨some (names.map ToolCall.mk)⟩

/-- Number of individual take_screenshot calls in a history — the quantity
the spec's rate-limit sentence counts (the source's `screenshotCount`
instead counts steps containing at least one such call). -/
def screenshotCallTotal (H : List Step) : Nat :=
  ((usedTools H).filter (fun t => t = "take_screenshot")).length

lemma usedTools_append (H E : List Step) :
    usedTools (H ++ E) = usedTools H ++ usedTools E := by
  simp [usedTools]

lemma hasNavigated_mono (H E : List Step) (h : hasNavigated H = true) :
    hasNavigated (H ++ E) = true := by
  simp only [hasNavigated, usedTools_append] at *
  simp only [Bool.or_eq_true, List.elem_eq_mem, decide_eq_true_eq, List.mem_append] at *
  tauto

lemma listTabs_mono (H E : List Step)
    (h : (usedTools H).contains "list_tabs" = true) :
    (usedTools (H ++ E)).contains "list_tabs" = true := by
  simp only [usedTools_append]
  simp only [List.elem_eq_mem, decide_eq_true_eq, List.mem_append] at *
  tauto

lemma enabledOf_safe_nav :
    ∀ nav lt ss : Bool, ∀ t ∈ TOOL_CATEGORIES.safe ++ TOOL_CATEGORIES.navigation,
      t ∈ enabledOf nav lt ss := by decide

lemma enabledOf_interaction :
    ∀ nav lt ss : Bool, ∀ t ∈ TOOL_CATEGORIES.interaction,
      t ≠ "take_screenshot" → (t ∈ enabledOf nav lt ss ↔ nav = true) := by decide

lemma enabledOf_screenshot :
    ∀ nav lt ss : Bool,
      ("take_screenshot" ∈ enabledOf nav lt ss ↔ nav = true ∧ ss = false) := by decide

lemma enabledOf_close_tab :
    ∀ nav lt ss : Bool,
      ("close_tab" ∈ enabledOf nav lt ss ↔ (nav || lt) = true) := by decide

lemma enabledOf_mono :
    ∀ n l s n2 l2 s2 : Bool, (n = true → n2 = true) → (l = true → l2 = true) →
      ∀ t ∈ enabledOf n l s, t ≠ "take_screenshot" → t ∈ enabledOf n2 l2 s2 := by
  decide

lemma mem_enabledToolNames (H : List Step) (t : String) :
    t ∈ enabledToolNames H ↔
      t ∈ enabledOf (hasNavigated H) ((usedTools H).contains "list_tabs")
        (decide (5 ≤ screenshotCount H)) := by
  rw [enabledToolNames_eq]

/-- C1: as stated, fails on the code — a catalog-fetch failure propagates to
the route's catch block, which returns the HTTP 500 JSON error response, not
a conversational response over an empty tool set. -/
theorem C1_counterexample :
    POST (α := Unit) (Except.error "fetch failed") =
      ChatResponse.errorResponse 500 "Failed to process chat request" "fetch failed" ∧
    POST (α := Unit) (Except.error "fetch failed") ≠
      ChatResponse.streamResponse [] 0 := by
  constructor
  · rfl
  · intro h
    exact ChatResponse.noConfusion h

/-- C1 (amended): when the `tools/list` request fails (network error or
unparseable response), the chat endpoint returns the 500 error response
`{error: 'Failed to process chat request', details: <thrown message>}`;
it does not fall back to an empty tool set. -/
theorem C1_catalog_failure_returns_500 {α : Type} (e : String) :
    POST (α := α) (Except.error e) =
      ChatResponse.errorResponse 500 "Failed to process chat request" e := rfl

/-- C2: as stated, fails on the code — `switch_tab` belongs to the
navigation category, yet a history consisting of a `switch_tab` call does
not unlock the interaction tools, because the gate's `hasNavigated` flag
only checks `navigate_browser` and `create_tab`. -/
theorem C2_counterexample :
    "switch_tab" ∈ TOOL_CATEGORIES.navigation ∧
    ("click_element", ()) ∉ getEnabledTools fullCatalog [stepOf ["switch_tab"]] := by
  decide

/-- C2 (amended): an interaction tool other than `take_screenshot` is
exposed exactly when `navigate_browser` or `create_tab` has been called
(`switch_tab`, although in the navigation category, does not unlock
interaction); with neither called, every interaction tool — including
`take_screenshot` — is absent from the exposed set. -/
theorem C2_interaction_iff_navigated {α : Type} (allTools : List (String × α))
    (H : List Step) :
    (∀ p : String × α, p ∈ allTools → p.1 ∈ TOOL_CATEGORIES.interaction →
      p.1 ≠ "take_screenshot" →
      (p ∈ getEnabledTools allTools H ↔ hasNavigated H = true)) ∧
    (hasNavigated H = false → ∀ p : String × α, p ∈ allTools →
      p.1 ∈ TOOL_CATEGORIES.interaction → p ∉ getEnabledTools allTools H) := by
  constructor
  · intro p hp hint hts
    rw [mem_getEnabledTools, mem_enabledToolNames]
    rw [enabledOf_interaction _ _ _ _ hint hts]
    simp [hp]
  · intro hnav p hp hint hmem
    rw [mem_getEnabledTools, mem_enabledToolNames] at hmem
    by_cases hts : p.1 = "take_screenshot"
    · rw [hts] at hmem
      have := (enabledOf_screenshot (hasNavigated H)
        ((usedTools H).contains "list_tabs")
        (decide (5 ≤ screenshotCount H))).mp hmem.2
      rw [hnav] at this
      exact Bool.false_ne_true this.1
    · have := (enabledOf_interaction _ _ _ _ hint hts).mp hmem.2
      rw [hnav] at this
      exact Bool.false_ne_true this

/-- C3: as stated, fails on the code — the rate limit counts steps that
contain a screenshot call, not individual calls, so five `take_screenshot`
calls bundled into a single step (here together with a navigation call) do
not suppress the tool even though the history contains 5 screenshot calls. -/
theorem C3_counterexample :
    5 ≤ screenshotCallTotal
      [stepOf ["navigate_browser", "take_screenshot", "take_screenshot",
               "take_screenshot", "take_screenshot", "take_screenshot"]] ∧
    ("take_screenshot", ()) ∈ getEnabledTools fullCatalog
      [stepOf ["navigate_browser", "take_screenshot", "take_screenshot",
               "take_screenshot", "take_screenshot", "take_screenshot"]] := by
  decide

/-- C3 (amended): once navigation (`navigate_browser` or `create_tab`) has
occurred, the gate excludes `take_screenshot` exactly when at least 5 steps
each contain a `take_screenshot` call (multiple calls within one step count
once), and always includes every other interaction tool present in the
catalog; without navigation all interaction tools are absent regardless of
the screenshot count. -/
theorem C3_screenshot_rate_limit {α : Type} (allTools : List (String × α))
    (H : List Step) (hnav : hasNavigated H = true) :
    (∀ d : α, ("take_screenshot", d) ∈ allTools →
      (("take_screenshot", d) ∈ getEnabledTools allTools H ↔
        screenshotCount H < 5)) ∧
    (∀ p : String × α, p ∈ allTools → p.1 ∈ TOOL_CATEGORIES.interaction →
      p.1 ≠ "take_screenshot" → p ∈ getEnabledTools allTools H) := by
  constructor
  · intro d hd
    rw [mem_getEnabledTools, mem_enabledToolNames]
    show (_ ∧ "take_screenshot" ∈ _) ↔ _
    rw [enabledOf_screenshot]
    simp [hd, hnav, Nat.lt_iff_add_one_le, Nat.not_le]
  · intro p hp hint hts
    rw [mem_getEnabledTools, mem_enabledToolNames]
    exact ⟨hp, (enabledOf_interaction _ _ _ _ hint hts).mpr hnav⟩

/-- C3 (witness): with one navigation step, whether `take_screenshot` is
exposed is equivalent to the step-based screenshot counter being below 5. -/
theorem C3_screenshot_rate_limit_witness :
    ("take_screenshot", ()) ∈
        getEnabledTools fullCatalog [stepOf ["navigate_browser"]] ↔
      screenshotCount [stepOf ["navigate_browser"]] < 5 :=
  (C3_screenshot_rate_limit fullCatalog [stepOf ["navigate_browser"]]
    (by decide)).1 () (by decide)

/-- C2 (witness): for `click_element` on the full catalog, exposure is
equivalent to the navigation flag of the given history. -/
theorem C2_interaction_iff_navigated_witness :
    ("click_element", ()) ∈
        getEnabledTools fullCatalog [stepOf ["navigate_browser"]] ↔
      hasNavigated [stepOf ["navigate_browser"]] = true :=
  (C2_interaction_iff_navigated fullCatalog [stepOf ["navigate_browser"]]).1
    ("click_element", ()) (by decide) (by decide) (by decide)

/-- C4: as stated, fails on the code — a JSON-RPC error envelope with
message `boom` makes the tool's `execute` propagate the thrown
`Error('MCP error: boom')` (its `catch` block rethrows); the message is not
returned as the tool's result value. -/
theorem C4_counterexample :
    executeToolCall (jsonRpcOutcome
        (RpcReply.failure { message? := some "boom", stringified := "raw error object" } :
          RpcReply MCPCallToolResponse)) = Except.error "MCP error: boom" ∧
    executeToolCall (jsonRpcOutcome
        (RpcReply.failure { message? := some "boom", stringified := "raw error object" } :
          RpcReply MCPCallToolResponse)) ≠ Except.ok (ExecuteValue.plain "boom") := by
  constructor
  · rfl
  · intro h
    exact Except.noConfusion h

/-- C4 (amended): when a tool's remote invocation returns a JSON-RPC error
envelope, `jsonRpcRequest` throws `Error('MCP error: <message>')` and the
tool's `execute` callback rethrows it after logging, rather than returning
the message as the tool's result; feeding the failure back into the
conversation is left to the enclosing agent framework, which is outside
this repository. -/
theorem C4_rpc_error_rethrown (e : RpcError) :
    executeToolCall (jsonRpcOutcome
        (RpcReply.failure e : RpcReply MCPCallToolResponse)) =
      Except.error ("MCP error: " ++ jsOrString e.message? e.stringified) := rfl

/-- C5: the gate's output is always a sub-collection of the catalog, and
every catalog entry whose name is in the safe or navigation category is
always exposed. -/
theorem C5_gate_subset_and_core_always {α : Type} (allTools : List (String × α))
    (H : List Step) :
    (∀ p ∈ getEnabledTools allTools H, p ∈ allTools) ∧
    (∀ p : String × α, p ∈ allTools →
      (p.1 ∈ TOOL_CATEGORIES.safe ∨ p.1 ∈ TOOL_CATEGORIES.navigation) →
      p ∈ getEnabledTools allTools H) := by
  constructor
  · intro p hp
    exact ((mem_getEnabledTools allTools H p).mp hp).1
  · intro p hp hcat
    rw [mem_getEnabledTools, mem_enabledToolNames]
    exact ⟨hp, enabledOf_safe_nav _ _ _ _ (List.mem_append.mpr hcat)⟩

/-- C5 (witness): on the empty history, the safe tool `get_current_time` is
exposed from the full catalog. -/
theorem C5_gate_subset_and_core_always_witness :
    ("get_current_time", ()) ∈ getEnabledTools fullCatalog [] :=
  (C5_gate_subset_and_core_always fullCatalog []).2 ("get_current_time", ())
    (by decide) (Or.inl (by decide))

/-- C6: unlocking is monotonic under appending further steps — every exposed
tool other than `take_screenshot` stays exposed in any extension of the
history. -/
theorem C6_gate_monotonic {α : Type} (allTools : List (String × α))
    (H ext : List Step) (p : String × α) (hts : p.1 ≠ "take_screenshot")
    (hp : p ∈ getEnabledTools allTools H) :
    p ∈ getEnabledTools allTools (H ++ ext) := by
  rw [mem_getEnabledTools, mem_enabledToolNames] at hp ⊢
  exact ⟨hp.1,
    enabledOf_mono _ _ _ _ _ _ (hasNavigated_mono H ext) (listTabs_mono H ext)
      _ hp.2 hts⟩

/-- C6 (witness): `navigate_browser`, exposed on the empty history, stays
exposed after appending a screenshot step. -/
theorem C6_gate_monotonic_witness :
    ("navigate_browser", ()) ∈
      getEnabledTools fullCatalog ([] ++ [stepOf ["take_screenshot"]]) :=
  C6_gate_monotonic fullCatalog [] [stepOf ["take_screenshot"]]
    ("navigate_browser", ()) (by decide) (by decide)

/-- C7: as stated, fails on the code — `switch_tab` is a navigation-category
tool, yet after a lone `switch_tab` call the destructive tool `close_tab` is
still not exposed, because the gate's destructive condition checks only
`navigate_browser`/`create_tab` and `list_tabs`. -/
theorem C7_counterexample :
    "switch_tab" ∈ TOOL_CATEGORIES.navigation ∧
    ("close_tab", ()) ∉ getEnabledTools fullCatalog [stepOf ["switch_tab"]] := by
  decide

/-- C7 (amended): a catalog entry for `close_tab` is exposed exactly when
`navigate_browser` or `create_tab` has been called, or `list_tabs` has been
called (`switch_tab` does not count); on the empty history it is excluded. -/
theorem C7_destructive_iff {α : Type} (allTools : List (String × α))
    (H : List Step) (d : α) (hmem : ("close_tab", d) ∈ allTools) :
    (("close_tab", d) ∈ getEnabledTools allTools H ↔
      (hasNavigated H || (usedTools H).contains "list_tabs") = true) ∧
    ("close_tab", d) ∉ getEnabledTools allTools ([] : List Step) := by
  constructor
  · rw [mem_getEnabledTools, mem_enabledToolNames]
    show (_ ∧ "close_tab" ∈ _) ↔ _
    rw [enabledOf_close_tab]
    simp [hmem]
  · intro h
    rw [mem_getEnabledTools, mem_enabledToolNames] at h
    have hc := (enabledOf_close_tab _ _ _).mp h.2
    exact absurd hc (by decide)

/-- C7 (witness): after a `list_tabs` call, `close_tab` is exposed, via the
equivalence at that concrete history. -/
theorem C7_destructive_iff_witness :
    ("close_tab", ()) ∈ getEnabledTools fullCatalog [stepOf ["list_tabs"]] ↔
      (hasNavigated [stepOf ["list_tabs"]] ||
        (usedTools [stepOf ["list_tabs"]]).contains "list_tabs") = true :=
  (C7_destructive_iff fullCatalog [stepOf ["list_tabs"]] () (by decide)).1

/-- C8: the gate is a pure function of catalog and history — two evaluations
on identical inputs yield identical outputs (in this embedding it is a
mathematical function of exactly these two arguments, with no clock or
external state). -/
theorem C8_gate_deterministic {α : Type} (c1 c2 : List (String × α))
    (H1 H2 : List Step) (hc : c1 = c2) (hH : H1 = H2) :
    getEnabledTools c1 H1 = getEnabledTools c2 H2 := by
  subst hc
  subst hH
  rfl

/-- C8 (witness): repeated evaluation at a concrete catalog and history. -/
theorem C8_gate_deterministic_witness :
    getEnabledTools fullCatalog [stepOf ["navigate_browser"]] =
      getEnabledTools fullCatalog [stepOf ["navigate_browser"]] :=
  C8_gate_deterministic fullCatalog fullCatalog [stepOf ["navigate_browser"]]
    [stepOf ["navigate_browser"]] rfl rfl

/-- C9: a missing input schema, or one whose root `type` is not the string
`object`, is normalised to exactly the empty-object schema `{type: 'object',
properties: {}}` (no `required`, no other keywords), so the tool is treated
as parameterless. -/
theorem C9_non_object_schema_becomes_default {α : Type}
    (s : Option (JsonSchema α))
    (h : match s with
         | none => True
         | some sch => sch.type? ≠ some (SchemaTypeField.name "object")) :
    ensureObjectSchema s = defaultSchema α ∧
    (defaultSchema α).type? = some (SchemaTypeField.name "object") ∧
    (defaultSchema α).properties? = some [] ∧
    (defaultSchema α).required? = none := by
  refine ⟨?_, rfl, rfl, rfl⟩
  cases s with
  | none => rfl
  | some sch =>
    simp only [ensureObjectSchema]
    rw [if_neg h]

/-- C9 (witness): a string-typed root schema is replaced by the default
empty-object schema. -/
theorem C9_non_object_schema_becomes_default_witness :
    ensureObjectSchema (α := Unit)
        (some { type? := some (SchemaTypeField.name "string"), properties? := none,
                required? := none, extra := [] }) = defaultSchema Unit ∧
    (defaultSchema Unit).type? = some (SchemaTypeField.name "object") ∧
    (defaultSchema Unit).properties? = some [] ∧
    (defaultSchema Unit).required? = none :=
  C9_non_object_schema_becomes_default
    (some { type? := some (SchemaTypeField.name "string"), properties? := none,
            required? := none, extra := [] }) (by decide)

/-- C10: normalisation always produces a root type `object`, drops every
root-level keyword other than `type`, `properties` and `required`, turns an
absent `properties` field into `{}`, and is idempotent. -/
theorem C10_normalisation_lossy_idempotent {α : Type}
    (s : Option (JsonSchema α)) :
    (ensureObjectSchema s).type? = some (SchemaTypeField.name "object") ∧
    (ensureObjectSchema s).extra = [] ∧
    (ensureObjectSchema s).properties?.isSome = true ∧
    (∀ sch, s = some sch → sch.properties? = none →
      (ensureObjectSchema s).properties? = some []) ∧
    ensureObjectSchema (some (ensureObjectSchema s)) = ensureObjectSchema s := by
  cases s with
  | none =>
    refine ⟨rfl, rfl, rfl, ?_, rfl⟩
    intro sch hsch
    exact absurd hsch (by simp)
  | some sch =>
    by_cases ht : sch.type? = some (SchemaTypeField.name "object")
    · refine ⟨by simp [ensureObjectSchema, ht], by simp [ensureObjectSchema, ht],
        by simp [ensureObjectSchema, ht], ?_, by simp [ensureObjectSchema, ht]⟩
      intro sch2 hsch2 hprops
      cases hsch2
      simp [ensureObjectSchema, ht, hprops]
    · refine ⟨by simp [ensureObjectSchema, defaultSchema, ht],
        by simp [ensureObjectSchema, defaultSchema, ht],
        by simp [ensureObjectSchema, defaultSchema, ht], ?_,
        by simp [ensureObjectSchema, defaultSchema, ht]⟩
      intro sch2 hsch2 hprops
      simp [ensureObjectSchema, defaultSchema, ht]

/-- C10 (witness): normalising an object-typed schema with absent
`properties`, a `required` list and a spare root keyword yields `{}` as
`properties`, and normalising again is the identity. -/
theorem C10_normalisation_lossy_idempotent_witness :
    (ensureObjectSchema (α := Unit)
        (some { type? := some (SchemaTypeField.name "object"), properties? := none,
                required? := some ["a"],
                extra := [("description", ())] })).properties? = some [] ∧
    ensureObjectSchema (α := Unit)
        (some (ensureObjectSchema
          (some { type? := some (SchemaTypeField.name "object"), properties? := none,
                  required? := some ["a"], extra := [("description", ())] }))) =
      ensureObjectSchema
        (some { type? := some (SchemaTypeField.name "object"), properties? := none,
                required? := some ["a"], extra := [("description", ())] }) :=
  ⟨(C10_normalisation_lossy_idempotent
      (some { type? := some (SchemaTypeField.name "object"), properties? := none,
              required? := some ["a"], extra := [("description", ())] })).2.2.2.1
    _ rfl rfl,
   (C10_normalisation_lossy_idempotent
      (some { type? := some (SchemaTypeField.name "object"), properties? := none,
              required? := some ["a"], extra := [("description", ())] })).2.2.2.2⟩

end ElevenVoice
